import Mathlib

/-!
Shallow embedding of the protopia_backend assessment pipeline
(`assessments/models.py`, `assessments/views.py`, `assessments/views_vr.py`,
`assessments/ai_analysis.py`, `assessments/serializers.py`).

Conventions of the embedding:
* Python floats are modelled as rationals (`ℚ`); every constant appearing in
  the code (0.5, 4.7, 0.35, …) is exactly representable, and the claims under
  study are inequalities/equalities that are insensitive to binary rounding.
* Django querysets become Lean lists; `random.sample(pop, k)` becomes an
  abstract parameter `sample : List Question → Nat → List Question`
  constrained by `SampleOK` (it returns `min k |pop|` elements of the
  population, pairwise distinct whenever the population is duplicate-free),
  which is exactly the contract of `random.sample`.
* `round(x, 2)` is modelled by `round2` (round half to even, as Python does).
-/

/- Batteries marks the `Rat` arithmetic operations `@[irreducible]`, which
prevents `decide` from evaluating the embedded score computations on
concrete inputs.  Reducibility attributes do not affect soundness (the
kernel ignores them); we restore the default so concrete runs reduce. -/
attribute [local semireducible] Rat.add Rat.sub Rat.mul Rat.inv Rat.ofScientific

/-- Python `round(x, 2)` on a rational: round half to even at two decimals. -/
def round2 (x : ℚ) : ℚ :=
  let y := x * 100
  let f : ℤ := ⌊y⌋
  let r := y - (f : ℚ)
  let n : ℤ :=
    if r < 1/2 then f
    else if 1/2 < r then f + 1
    else if f % 2 = 0 then f else f + 1
  (n : ℚ) / 100

/-- `np.mean` / Python mean of a list of rationals (0 on the empty list;
every use site in the embedded code guards against the empty list). -/
def pymean (l : List ℚ) : ℚ := l.sum / (l.length : ℚ)

/- ===================== models.py: AssessmentProgress ===================== -/

/-- `AssessmentProgress.Status` (`models.py`). -/
inductive Status where
  | NOT_STARTED
  | MCQ_DONE
  | ESSAY_DONE
  | VR_DONE
  | FINALIZED
deriving DecidableEq, BEq, Repr

/-- The `order` list inside `AssessmentProgress.advance` (`models.py`). -/
def statusOrder : List Status :=
  [Status.NOT_STARTED, Status.MCQ_DONE, Status.ESSAY_DONE, Status.VR_DONE,
   Status.FINALIZED]

/-- `order.index(s)` for a status. -/
def statusIdx (s : Status) : Nat := statusOrder.indexOf s

/-- `AssessmentProgress.advance(next_status)` (`models.py` lines 166-176):
the status is overwritten exactly when `order.index(next_status) >=
order.index(self.status)`. -/
def advance (current next : Status) : Status :=
  if statusIdx current ≤ statusIdx next then next else current

/- ===================== views.py: QuestionListView ===================== -/

/-- The fields of `Question` (`models.py`) used by the selection and scoring
code. -/
structure Question where
  id : Nat
  text : String
  trait : String
  profession_tags : List String
  age_group : String
  gender_specific : Option String
  weight : ℚ
  reverse_score : Bool
deriving DecidableEq, BEq, Repr

/-- The demographic fields of the user model consulted by
`QuestionListView.get`. -/
structure UserDemo where
  age_range : String
  gender : String
  profession : String
deriving DecidableEq, Repr

/-- `profession_tags__overlap=[user.profession]` on the `JSONField`
`profession_tags`: `overlap` is an ArrayField lookup, not a JSONField one,
so Django resolves it as the key transform `profession_tags -> 'overlap'`
compared for equality with the list; on the list-valued tags this model
stores (`JSONField(default=list)`, seeded with lists of strings), the key
lookup yields SQL NULL and the condition matches no row. -/
def overlapKeyTransform (_tags : List String) (_value : List String) : Bool :=
  false

/-- `gender_specific__in=[None, "", user.gender]`: Django's `In` lookup
discards `None` from the value list (SQL NULL is never equal to anything),
so a NULL `gender_specific` never matches; only `""` and the user's gender
do. -/
def genderInPred (u : UserDemo) (q : Question) : Bool :=
  q.gender_specific = some "" || q.gender_specific = some u.gender

/-- The strict filter of `QuestionListView.get` (`views.py` lines 50-56):
`age_group__in=["all", user.age_range]`,
`gender_specific__in=[None, "", user.gender]` (NULL discarded by `In`),
`profession_tags__overlap=[user.profession]` (a dead JSON key transform on
list-valued tags). -/
def strictPred (u : UserDemo) (q : Question) : Bool :=
  (q.age_group = "all" || q.age_group = u.age_range) &&
  genderInPred u q &&
  overlapKeyTransform q.profession_tags [u.profession]

/-- The fallback filter (`views.py` lines 61-66): same as the strict filter
minus the profession condition. -/
def fallbackPred (u : UserDemo) (q : Question) : Bool :=
  (q.age_group = "all" || q.age_group = u.age_range) &&
  genderInPred u q

/-- `strict = list(Question.objects.filter(...))`. -/
def strictQs (u : UserDemo) (pool : List Question) : List Question :=
  pool.filter (strictPred u)

/-- `fallback = list(Question.objects.filter(...))`. -/
def fallbackQs (u : UserDemo) (pool : List Question) : List Question :=
  pool.filter (fallbackPred u)

/-- `combined = list(set(strict + fallback))` — a duplicate-free list of the
elements of `strict ++ fallback` (Python's set order is unspecified; we keep
first-occurrence order, which is immaterial to the claims, all about length,
membership and distinctness). -/
def combinedQs (u : UserDemo) (pool : List Question) : List Question :=
  (strictQs u pool ++ fallbackQs u pool).dedup

/-- Contract of `random.sample(pop, k)` for `k ≤ |pop|` (the code always
passes `k ≤ |pop|` via `min`, except in the first two branches where
`|pop| ≥ 20 = k`): the result has `min k |pop|` elements, each drawn from
`pop`, pairwise distinct whenever `pop` is duplicate-free (`random.sample`
samples distinct positions). -/
def SampleOK (sample : List Question → Nat → List Question) : Prop :=
  ∀ l k, (sample l k).length = min k l.length ∧
    (∀ q ∈ sample l k, q ∈ l) ∧
    (l.Nodup → (sample l k).Nodup)

/-- One admissible behaviour of `random.sample`: take the first `k`. -/
def takeSample (l : List Question) (k : Nat) : List Question := l.take k

theorem takeSample_ok : SampleOK takeSample := by
  intro l k
  refine ⟨List.length_take k l, ?_, ?_⟩
  · intro q hq
    exact List.mem_of_mem_take hq
  · intro h
    exact h.sublist (List.take_sublist k l)

/-- The `selected` list computed by `QuestionListView.get` (`views.py`
lines 50-74): strict branch, fallback branch, or final fill with
`random.sample(all_qs, min(remaining_needed, len(all_qs)))` appended to
`combined` (note: the fill samples from the whole pool, with no
deduplication against `combined`). -/
def selectedQs (sample : List Question → Nat → List Question)
    (u : UserDemo) (pool : List Question) : List Question :=
  if 20 ≤ (strictQs u pool).length then sample (strictQs u pool) 20
  else if 20 ≤ (combinedQs u pool).length then sample (combinedQs u pool) 20
  else
    combinedQs u pool ++
      sample pool (min (20 - (combinedQs u pool).length) pool.length)

/-- `QuestionListView.get` (`views.py` lines 47-83), parameterised by the
behaviour of `random.sample`.  `pool` is the whole `Question` table.
Returns the 400 error message or the selected list. -/
def questionList (sample : List Question → Nat → List Question)
    (u : UserDemo) (pool : List Question) : Except String (List Question) :=
  if (selectedQs sample u pool).length < 20 then
    Except.error "Not enough questions available in the database."
  else
    Except.ok (selectedQs sample u pool)

/-- A duplicate-free list contained in another list is no longer than it. -/
theorem nodup_subset_length_le {α : Type} [DecidableEq α] {l m : List α}
    (hn : l.Nodup) (hs : ∀ x ∈ l, x ∈ m) : l.length ≤ m.length := by
  calc l.length = l.toFinset.card := (List.toFinset_card_of_nodup hn).symm
    _ ≤ m.toFinset.card := by
        apply Finset.card_le_card
        intro x hx
        rw [List.mem_toFinset] at hx ⊢
        exact hs x hx
    _ ≤ m.length := List.toFinset_card_le m

theorem combinedQs_length_le (u : UserDemo) (pool : List Question) :
    (combinedQs u pool).length ≤ pool.length := by
  apply nodup_subset_length_le (List.nodup_dedup _)
  intro x hx
  simp only [combinedQs, List.mem_dedup, List.mem_append] at hx
  rcases hx with h | h
  · exact List.mem_of_mem_filter h
  · exact List.mem_of_mem_filter h

theorem strictQs_length_le (u : UserDemo) (pool : List Question) :
    (strictQs u pool).length ≤ pool.length :=
  List.length_filter_le _ _

/-- On list-valued `profession_tags` the strict queryset is empty: the
`__overlap` key transform matches no row. -/
theorem strictQs_eq_nil (u : UserDemo) (pool : List Question) :
    strictQs u pool = [] := by
  apply List.filter_eq_nil_iff.mpr
  intro q _
  simp [strictPred, overlapKeyTransform]

/-- C4: `advance` is monotone in the status order: for every current status
`s` and target `t`, `advance s t` keeps `s` when `t`'s order index is `≤`
`s`'s index (in particular `ESSAY_DONE` stays on a backwards `MCQ_DONE`
target), and becomes `t` otherwise.  (When the indices are equal the code
overwrites the status, but the target then *is* the current status.) -/
theorem advance_monotone_matches_spec :
    ∀ s t : Status, advance s t = if statusIdx t ≤ statusIdx s then s else t := by
  intro s t
  cases s <;> cases t <;> rfl

/-- In the final fill branch, the selected list has
`|combined| + min (20 - |combined|) |pool|` entries. -/
theorem selectedQs_length_fill (sample : List Question → Nat → List Question)
    (u : UserDemo) (pool : List Question) (hok : SampleOK sample)
    (h1 : ¬ 20 ≤ (strictQs u pool).length)
    (h2 : ¬ 20 ≤ (combinedQs u pool).length) :
    (selectedQs sample u pool).length =
      (combinedQs u pool).length +
        min (20 - (combinedQs u pool).length) pool.length := by
  unfold selectedQs
  rw [if_neg h1, if_neg h2, List.length_append, (hok pool _).1]
  omega

/-- C1 (amended): with fewer than 20 questions in the whole pool, the
selection returns the "insufficient question bank" error exactly when
`|combined| + |pool| < 20`; otherwise it succeeds with a 20-entry list
(padded from the whole pool, hence possibly containing duplicates). -/
theorem questionList_small_pool (sample : List Question → Nat → List Question)
    (u : UserDemo) (pool : List Question) (hok : SampleOK sample)
    (hsmall : pool.length < 20) :
    if (combinedQs u pool).length + pool.length < 20 then
      questionList sample u pool =
        Except.error "Not enough questions available in the database."
    else
      questionList sample u pool = Except.ok (selectedQs sample u pool) ∧
        (selectedQs sample u pool).length = 20 := by
  have hstrict := strictQs_length_le u pool
  have hcomb := combinedQs_length_le u pool
  have h1 : ¬ 20 ≤ (strictQs u pool).length := by omega
  have h2 : ¬ 20 ≤ (combinedQs u pool).length := by omega
  have hlen := selectedQs_length_fill sample u pool hok h1 h2
  by_cases hc : (combinedQs u pool).length + pool.length < 20
  · rw [if_pos hc]
    unfold questionList
    rw [if_pos (by omega)]
  · rw [if_neg hc]
    refine ⟨?_, by omega⟩
    unfold questionList
    rw [if_neg (by omega)]

/-- C3 (amended): with at least 20 questions in the whole pool, the
selection always succeeds with exactly 20 entries; they are pairwise
distinct whenever the deduplicated combined (age/gender fallback)
candidate set alone has at least 20 questions — the strict branch never
fires, its profession condition being a dead JSON key transform — while in
the final fill branch the code samples from the whole pool without
deduplicating against the already-chosen questions, so duplicates can
occur there. -/
theorem questionList_large_pool (sample : List Question → Nat → List Question)
    (u : UserDemo) (pool : List Question) (hok : SampleOK sample)
    (h20 : 20 ≤ pool.length) :
    questionList sample u pool = Except.ok (selectedQs sample u pool) ∧
      (selectedQs sample u pool).length = 20 ∧
      (20 ≤ (combinedQs u pool).length → (selectedQs sample u pool).Nodup) := by
  have hcomb := combinedQs_length_le u pool
  have h1 : ¬ 20 ≤ (strictQs u pool).length := by
    rw [strictQs_eq_nil u pool]
    simp
  have hsel : (selectedQs sample u pool).length = 20 ∧
      (20 ≤ (combinedQs u pool).length → (selectedQs sample u pool).Nodup) := by
    unfold selectedQs
    rw [if_neg h1]
    by_cases h2 : 20 ≤ (combinedQs u pool).length
    · rw [if_pos h2]
      refine ⟨by rw [(hok _ 20).1]; omega, fun _ => ?_⟩
      exact (hok _ 20).2.2 (List.nodup_dedup _)
    · rw [if_neg h2]
      refine ⟨?_, fun h => absurd h h2⟩
      rw [List.length_append, (hok pool _).1]
      omega
  refine ⟨?_, hsel.1, hsel.2⟩
  unfold questionList
  rw [if_neg (by omega)]

/- Concrete data for the counterexamples and witnesses. -/

/-- A question matching the fallback filter of any user (`age_group = "all"`,
`gender_specific = ""`); the strict filter matches nothing, its `__overlap`
condition being a dead JSON key transform. -/
def mkQ (i : Nat) : Question := ⟨i, "q", "t", [], "all", some "", 1, false⟩

/-- A question matching no demographic filter of `demoUser`
(`age_group = "x"`). -/
def mkQx (i : Nat) : Question := ⟨i, "q", "t", [], "x", none, 1, false⟩

def demoUser : UserDemo := ⟨"a", "g", "p"⟩

/-- 19 distinct questions, all matching `demoUser`'s fallback filter. -/
def pool19 : List Question := (List.range 19).map mkQ

/-- 20 distinct questions of which only the first matches `demoUser`'s
fallback filter. -/
def pool20dup : List Question :=
  mkQ 0 :: (List.range 19).map (fun i => mkQx (i + 1))

/-- 5 questions matching no filter of `demoUser`. -/
def pool5 : List Question := (List.range 5).map mkQx

/-- 20 distinct questions all matching `demoUser`'s fallback filter. -/
def pool20 : List Question := (List.range 20).map mkQ

/-- The list returned on `pool20dup`: `mkQ 0` appears twice. -/
def dupSelected : List Question :=
  mkQ 0 :: mkQ 0 :: (List.range 18).map (fun i => mkQx (i + 1))

/-- C1 (counterexample): a pool of 19 questions, all matching the fallback
filter: the operation does NOT fail; it returns a 20-entry list padded with
a duplicate of an already-chosen question. -/
theorem questionList_small_pool_returns_list :
    pool19.length = 19 ∧
      questionList takeSample demoUser pool19 = Except.ok (pool19 ++ [mkQ 0]) := by
  constructor
  · rfl
  · rfl

/-- C1 (witness): on a 5-question pool matching no filter, the amended
statement's error branch fires. -/
theorem questionList_small_pool_witness :
    pool5.length < 20 ∧
      (if (combinedQs demoUser pool5).length + pool5.length < 20 then
        questionList takeSample demoUser pool5 =
          Except.error "Not enough questions available in the database."
      else
        questionList takeSample demoUser pool5 =
            Except.ok (selectedQs takeSample demoUser pool5) ∧
          (selectedQs takeSample demoUser pool5).length = 20) :=
  ⟨by decide,
   questionList_small_pool takeSample demoUser pool5 takeSample_ok (by decide)⟩

/-- C3 (counterexample): a pool of 20 distinct questions of which only one
matches the fallback filter: the selection returns 20 entries among which
`mkQ 0` appears twice — not pairwise distinct, because the final fill step
samples from the entire pool without deduplicating against the
already-chosen questions. -/
theorem questionList_large_pool_duplicates :
    pool20dup.length = 20 ∧
      questionList takeSample demoUser pool20dup = Except.ok dupSelected ∧
      ¬ dupSelected.Nodup := by
  refine ⟨by rfl, by rfl, by decide⟩

/-- C3 (witness): on a 20-question pool whose combined candidate set has
all 20 questions, the amended statement produces a 20-entry pairwise
distinct selection (the distinctness guard fires: the combined set has 20
entries). -/
theorem questionList_large_pool_witness :
    20 ≤ pool20.length ∧
      (questionList takeSample demoUser pool20 =
          Except.ok (selectedQs takeSample demoUser pool20) ∧
        (selectedQs takeSample demoUser pool20).length = 20 ∧
        (20 ≤ (combinedQs demoUser pool20).length →
          (selectedQs takeSample demoUser pool20).Nodup)) :=
  ⟨by decide,
   questionList_large_pool takeSample demoUser pool20 takeSample_ok
     (by decide)⟩

/- ===================== views_vr.py: VRCompleteView ===================== -/

/-- One element of `VRSession.choices` as appended by `VRAnswerView.post`:
the stripped transcript and the numeric speech features read by
`per_answer_score` (`_duration_sec`, `speech_rate_wps`, `avg_pause_sec`);
a missing or empty `features` dict is the all-`none` record. -/
structure VRAnswerItem where
  transcript : String
  durationSec : Option ℚ
  speechRateWps : Option ℚ
  avgPauseSec : Option ℚ
deriving DecidableEq, Repr

/-- Python `features.get(k) or default` on a numeric field: both a missing
key (`None`) and `0.0` are falsy and give the default. -/
def pyOr (v : Option ℚ) (d : ℚ) : ℚ :=
  match v with
  | none => d
  | some x => if x = 0 then d else x

/-- The maximal runs of characters satisfying `p` (used to model
`str.split()` — runs of non-whitespace — and the word regex `[a-z']+`). -/
def splitRunsBy (p : Char → Bool) : List Char → List (List Char)
  | [] => []
  | c :: rest =>
    if p c then
      match splitRunsBy p rest, rest with
      | run :: runs, r :: _ =>
        if p r then (c :: run) :: runs else [c] :: run :: runs
      | runs, _ => [c] :: runs
    else splitRunsBy p rest

/-- Python `str.strip()`: drop leading and trailing whitespace. -/
def pyStrip (s : String) : String :=
  String.mk
    (((s.data.dropWhile Char.isWhitespace).reverse.dropWhile
        Char.isWhitespace).reverse)

/-- `len([w for w in transcript.split() if w.strip()])`: the number of
whitespace-separated tokens (`str.split()` already drops empty tokens, so
the comprehension filter removes nothing). -/
def wsTokens (s : String) : Nat :=
  (splitRunsBy (fun c => !c.isWhitespace) s.data).length

/-- `per_answer_score` (`views_vr.py` lines 112-149): length tier plus
fluency tier plus pause tier, clamped into `[0, 10]`. -/
def perAnswerScore (a : VRAnswerItem) : ℚ :=
  let transcript := pyStrip a.transcript
  let words : ℚ := (wsTokens transcript : ℚ)
  let dur := pyOr a.durationSec 1
  let wps := pyOr a.speechRateWps (words / max 1 dur)
  let pauses := pyOr a.avgPauseSec 0.5
  let lengthPart : ℚ :=
    if 120 ≤ words then 6
    else if 80 ≤ words then 5
    else if 50 ≤ words then 4
    else if 30 ≤ words then 3
    else if 15 ≤ words then 2
    else 1
  let fluencyPart : ℚ :=
    if 1.2 ≤ wps ∧ wps ≤ 3.2 then 3
    else if 0.8 ≤ wps ∧ wps ≤ 4.0 then 2
    else if 0.5 ≤ wps ∧ wps ≤ 5.0 then 1
    else 0
  let pausePart : ℚ :=
    if pauses < 0.8 then 1
    else if pauses < 2.0 then 0.5
    else 0
  max 0 (min 10 (lengthPart + fluencyPart + pausePart))

/-- The `vr_score` computed by `VRCompleteView.post` (`views_vr.py` lines
109-155): score the first 5 recorded answers, pad the per-answer score list
with `0.0` up to 5 slots, sum and round. -/
def vrSessionScore (choices : List VRAnswerItem) : ℚ :=
  let answers := choices.take 5
  let perScores := answers.map perAnswerScore
  let padded := perScores ++ List.replicate (5 - perScores.length) 0
  round2 padded.sum

/-- An answer recorded with an empty transcript and no features. -/
def emptyVRAnswer : VRAnswerItem := ⟨"", none, none, none⟩

/-- C2 (counterexample): a session whose 5 answer slots are all recorded but
empty (empty transcript, no features) completes with `vr_score = 10.0`, not
`0.0`: each empty answer earns 1.0 from the length tier plus 1.0 from the
pause tier (default pause 0.5 < 0.8). -/
theorem vr_five_empty_answers_score_ten :
    vrSessionScore (List.replicate 5 emptyVRAnswer) = 10 ∧ (10 : ℚ) ≠ 0 := by
  constructor
  · decide
  · norm_num

/-- C2 (amended): only *missing* answers score 0: a session with no
recorded answers completes with `vr_score = 0.0`, while a recorded answer
with an empty transcript scores 2.0 (so five of them yield 10.0). -/
theorem vr_score_empty_vs_missing :
    vrSessionScore [] = 0 ∧ perAnswerScore emptyVRAnswer = 2 ∧
      vrSessionScore (List.replicate 5 emptyVRAnswer) = 10 := by
  refine ⟨by decide, by decide, by decide⟩

/- ===================== views.py: SubmitAnswersView ===================== -/

/-- `score_map.get(ans, 3)` (`views.py` lines 108-121): the five contract
labels map to 1..5; any other string maps to the Neutral value 3. -/
def scoreMapGet (ans : String) : ℚ :=
  if ans = "Strongly Disagree" then 1
  else if ans = "Disagree" then 2
  else if ans = "Neutral" then 3
  else if ans = "Agree" then 4
  else if ans = "Strongly Agree" then 5
  else 3

/-- `trait_scores[trait].append(v)` on a `defaultdict(list)` kept in
insertion order. -/
def addContrib (ts : List (String × List ℚ)) (trait : String) (v : ℚ) :
    List (String × List ℚ) :=
  match ts with
  | [] => [(trait, [v])]
  | (t, vs) :: rest =>
    if t = trait then (t, vs ++ [v]) :: rest
    else (t, vs) :: addContrib rest trait v

/-- `trait_scores[trait]` (the empty list for an unseen trait). -/
def traitList (ts : List (String × List ℚ)) (trait : String) : List ℚ :=
  match ts.find? (fun p => p.1 = trait) with
  | some p => p.2
  | none => []

theorem traitList_addContrib (ts : List (String × List ℚ)) (trait : String)
    (v : ℚ) : traitList (addContrib ts trait v) trait = traitList ts trait ++ [v] := by
  induction ts with
  | nil => simp [addContrib, traitList, List.find?]
  | cons p rest ih =>
    obtain ⟨t, vs⟩ := p
    by_cases h : t = trait
    · subst h
      simp [addContrib, traitList, List.find?]
    · simp only [addContrib, if_neg h]
      simpa [traitList, List.find?, h] using ih

/-- The body of the `for qid, ans in responses.items()` loop of
`SubmitAnswersView.post` (`views.py` lines 116-125): look the question up
by id (an unknown id is skipped), map the label with Neutral as default,
replace `v` by `6 - v` when the question is reverse-scored, append
`raw * weight` under the question's trait and record the `UserResponse`. -/
def submitStep (db : List Question)
    (acc : List (String × List ℚ) × List (Nat × ℚ)) (entry : Nat × String) :
    List (String × List ℚ) × List (Nat × ℚ) :=
  match db.find? (fun q => q.id = entry.1) with
  | none => acc
  | some q =>
    let raw := scoreMapGet entry.2
    let raw := if q.reverse_score then 6 - raw else raw
    (addContrib acc.1 q.trait (raw * q.weight), acc.2 ++ [(q.id, raw)])

/-- The whole response loop: accumulated `trait_scores` and the created
`UserResponse` rows. -/
def mcqLoop (db : List Question) (responses : List (Nat × String)) :
    List (String × List ℚ) × List (Nat × ℚ) :=
  responses.foldl (submitStep db) ([], [])

/-- The `Score` rows written per trait (`views.py` lines 127-129):
`round(min(sum(values) / max(len(values), 1), 5.0), 2)`. -/
def scoreRecords (ts : List (String × List ℚ)) : List (String × ℚ) :=
  ts.map (fun p =>
    (p.1, round2 (min (p.2.sum / ((max p.2.length 1 : ℕ) : ℚ)) 5)))

/-- `SubmitAnswersView.post` (`views.py` lines 88-132): the progress guard,
the 20-entry guard, then the scoring loop (which never fails). -/
def submitAnswers (db : List Question) (status : Status)
    (responses : List (Nat × String)) : Except String (List (String × ℚ)) :=
  if ¬ (status = Status.NOT_STARTED ∨ status = Status.MCQ_DONE) then
    Except.error "Out of order: MCQs already completed."
  else if responses.length ≠ 20 then
    Except.error "All 20 questions must be answered."
  else
    Except.ok (scoreRecords (mcqLoop db responses).1)

/-- C6: when the loop of `SubmitAnswersView.post` processes an entry whose
question id resolves to `q`, the mapped raw value `v` is in 1..5 and the
contribution appended under `q.trait` equals `(6 - v) * weight` when the
question is reverse-scored and `v * weight` otherwise. -/
theorem mcq_contribution (db : List Question)
    (acc : List (String × List ℚ) × List (Nat × ℚ)) (qid : Nat) (ans : String)
    (q : Question) (hq : db.find? (fun x => x.id = qid) = some q) :
    1 ≤ scoreMapGet ans ∧ scoreMapGet ans ≤ 5 ∧
    traitList (submitStep db acc (qid, ans)).1 q.trait =
      traitList acc.1 q.trait ++
        [(if q.reverse_score then 6 - scoreMapGet ans else scoreMapGet ans) *
          q.weight] := by
  refine ⟨?_, ?_, ?_⟩
  · unfold scoreMapGet; split_ifs <;> norm_num
  · unfold scoreMapGet; split_ifs <;> norm_num
  · unfold submitStep
    simp only [hq]
    exact traitList_addContrib _ _ _

/-- A reverse-scored question of weight 2 on trait "empathy". -/
def q7 : Question := ⟨7, "q", "empathy", [], "all", none, 2, true⟩

def db1 : List Question := [q7]

/-- C6 (witness): answering `q7` with "Agree" (v = 4) appends
`(6 - 4) * 2 = 4` under "empathy". -/
theorem mcq_contribution_witness :
    db1.find? (fun x => x.id = 7) = some q7 ∧
      (1 ≤ scoreMapGet "Agree" ∧ scoreMapGet "Agree" ≤ 5 ∧
        traitList (submitStep db1 ([], []) (7, "Agree")).1 q7.trait =
          traitList ([] : List (String × List ℚ)) q7.trait ++
            [(if q7.reverse_score then 6 - scoreMapGet "Agree"
              else scoreMapGet "Agree") * q7.weight]) :=
  ⟨by decide, mcq_contribution db1 ([], []) 7 "Agree" q7 (by decide)⟩

/-- The five contract labels of the MCQ answer API. -/
def contractLabels : List String :=
  ["Strongly Disagree", "Disagree", "Neutral", "Agree", "Strongly Agree"]

/-- C9: in a 20-entry submission made in an allowed progress state, an entry
whose answer string is not one of the five contract labels does not make the
submission fail; the entry is scored as Neutral (raw value 3, unchanged by
reverse scoring), contributing `3 * weight` to its question's trait. -/
theorem mcq_unknown_label_neutral (db : List Question) (status : Status)
    (responses : List (Nat × String))
    (acc : List (String × List ℚ) × List (Nat × ℚ)) (qid : Nat) (ans : String)
    (q : Question)
    (hst : status = Status.NOT_STARTED ∨ status = Status.MCQ_DONE)
    (hlen : responses.length = 20)
    (hmem : (qid, ans) ∈ responses)
    (hans : ans ∉ contractLabels)
    (hq : db.find? (fun x => x.id = qid) = some q) :
    submitAnswers db status responses =
      Except.ok (scoreRecords (mcqLoop db responses).1) ∧
    scoreMapGet ans = 3 ∧
    traitList (submitStep db acc (qid, ans)).1 q.trait =
      traitList acc.1 q.trait ++ [3 * q.weight] := by
  have h3 : scoreMapGet ans = 3 := by
    simp only [contractLabels, List.mem_cons, List.not_mem_nil, or_false,
      not_or] at hans
    obtain ⟨h1, h2, h3', h4, h5⟩ := hans
    unfold scoreMapGet
    rw [if_neg h1, if_neg h2, if_neg h3', if_neg h4, if_neg h5]
  refine ⟨?_, h3, ?_⟩
  · unfold submitAnswers
    rw [if_neg (by simp [hst]), if_neg (by omega)]
  · unfold submitStep
    simp only [hq, h3]
    have := traitList_addContrib acc.1 q.trait
      ((if q.reverse_score then 6 - 3 else 3) * q.weight)
    by_cases hrev : q.reverse_score <;>
      simpa [hrev, (by norm_num : (6 : ℚ) - 3 = 3)] using this

/-- A 20-entry submission answering every question id 0..19 with the
non-contract string "Maybe". -/
def responses20 : List (Nat × String) := (List.range 20).map (fun i => (i, "Maybe"))

/-- C9 (witness): the 20-entry submission `responses20` containing the
non-contract answer "Maybe" for question 7 succeeds and scores that entry
as Neutral. -/
theorem mcq_unknown_label_neutral_witness :
    ((7, "Maybe") ∈ responses20 ∧ responses20.length = 20 ∧
        "Maybe" ∉ contractLabels) ∧
      (submitAnswers db1 Status.NOT_STARTED responses20 =
          Except.ok (scoreRecords (mcqLoop db1 responses20).1) ∧
        scoreMapGet "Maybe" = 3 ∧
        traitList (submitStep db1 ([], []) (7, "Maybe")).1 q7.trait =
          traitList ([] : List (String × List ℚ)) q7.trait ++ [3 * q7.weight]) :=
  ⟨⟨by decide, by decide, by decide⟩,
   mcq_unknown_label_neutral db1 Status.NOT_STARTED responses20 ([], []) 7
     "Maybe" q7 (Or.inl rfl) (by decide) (by decide) (by decide) (by decide)⟩

/- ===================== ai_analysis.py: analyze_essay ===================== -/

/-- A character matched by the word regex `[a-z']+` (applied to lowercased
text; the `re.I` flag is immaterial after `.lower()`). -/
def isWordChar (c : Char) : Bool :=
  (97 ≤ c.toNat && c.toNat ≤ 122) || c.toNat = 39

/-- `_words(text)`: all maximal `[a-z']+` runs of the lowercased text. -/
def pyRegexWords (s : String) : List String :=
  (splitRunsBy isWordChar (s.data.map Char.toLower)).map String.mk

/-- `len(set(w))`. -/
def uniqCount (ws : List String) : ℕ := ws.dedup.length

/-- Tail of `_max_repeat_run`: `prev` is the previous word, `cur` the
current run length, `best` the best run seen. -/
def maxRepeatRunGo (prev : String) (cur best : ℕ) : List String → ℕ
  | [] => best
  | w :: rest =>
    if w = prev then maxRepeatRunGo w (cur + 1) (max best (cur + 1)) rest
    else maxRepeatRunGo w 1 best rest

/-- `_max_repeat_run(words)` (`ai_analysis.py` lines 82-90): the longest run
of immediately repeated words, 0 on the empty list. -/
def maxRepeatRun : List String → ℕ
  | [] => 0
  | w :: rest => maxRepeatRunGo w 1 1 rest

/-- `_repetitiveness_ratio(words, n)` (`ai_analysis.py` lines 92-102): top
n-gram frequency normalised by the number of n-grams. -/
def ngramRep (ws : List String) (n : ℕ) : ℚ :=
  if ws.length < n then 0
  else
    let grams := (List.range (ws.length - n + 1)).map (fun i => (ws.drop i).take n)
    let maxCount := (grams.map (fun g => grams.count g)).foldr max 0
    (maxCount : ℚ) / ((max (ws.length - n + 1) 1 : ℕ) : ℚ)

/-- `_AI_PHRASES`. -/
def aiPhrases : List String :=
  ["in conclusion", "to conclude", "it is important to note",
   "one of the most important", "this highlights", "this demonstrates",
   "leadership is the cornerstone", "it is essential", "furthermore",
   "moreover", "in summary"]

/-- `a` is an initial segment of `b`. -/
def isPre : List Char → List Char → Bool
  | [], _ => true
  | _ :: _, [] => false
  | a :: as, b :: bs => a = b && isPre as bs

/-- Python's `pat in s` substring test. -/
def hasSub (pat : List Char) : List Char → Bool
  | [] => isPre pat []
  | c :: t => isPre pat (c :: t) || hasSub pat t

/-- `looks_ai_generated(text)`: some AI-ish phrase occurs in the lowercased
text. -/
def looksAiGenerated (t : String) : Bool :=
  aiPhrases.any (fun p => hasSub p.data (t.data.map Char.toLower))

/-- `_FILTERS_LIST` (= `list(_FILLERS)`; the set's iteration order is
arbitrary but the summed counts are order-independent). -/
def fillersList : List String :=
  ["um", "uh", "erm", "like", "basically", "actually", "literally",
   "you know", "sort of", "kind of"]

/-- Python's `s.count(pat)` for a nonempty pattern: number of
non-overlapping occurrences, scanning left to right. -/
def countOccs (pat : List Char) : List Char → ℕ
  | [] => 0
  | c :: t =>
    if isPre pat (c :: t) then 1 + countOccs pat (t.drop (pat.length - 1))
    else countOccs pat t
termination_by s => s.length
decreasing_by
  · simp only [List.length_cons, List.length_drop]; omega
  · simp only [List.length_cons]; omega

/-- `sum(tl.count(" " + f + " ") for f in _FILTERS_LIST)` on the lowercased
text (`ai_analysis.py` lines 202-204; this inline version pads nothing). -/
def fillerCount (t : String) : ℕ :=
  (fillersList.map (fun f =>
    countOccs (" " ++ f ++ " ").data (t.data.map Char.toLower))).sum

/-- `filler_cnt / max(len(_words(t)), 1)`. -/
def fillerFrac (t : String) : ℚ :=
  (fillerCount t : ℚ) / ((max (pyRegexWords t).length 1 : ℕ) : ℚ)

/-- The per-answer words-per-minute list (`ai_analysis.py` lines 210-215). -/
def wpmList (wordCounts times : List ℕ) : List ℚ :=
  (wordCounts.zip times).map (fun p =>
    if p.2 = 0 then 0 else ((p.1 : ℚ) / ((max p.2 1 : ℕ) : ℚ)) * 60)

/-- `times = times or [0] * len(texts)`. -/
def essayTimesN (texts : List String) (times : List ℕ) : List ℕ :=
  if times.isEmpty then List.replicate texts.length 0 else times

/-- `paste_flags = paste_flags or [False] * len(texts)`. -/
def essayPastesN (texts : List String) (pastes : List Bool) : List Bool :=
  if pastes.isEmpty then List.replicate texts.length false else pastes

/-- `word_counts`. -/
def essayWordCounts (texts : List String) : List ℕ :=
  texts.map (fun t => (pyRegexWords t).length)

/-- `uniq_ratios` (per answer, `len(set(w)) / max(len(w), 1)`). -/
def essayUniqFracs (texts : List String) : List ℚ :=
  texts.map (fun t =>
    (uniqCount (pyRegexWords t) : ℚ) / ((max (pyRegexWords t).length 1 : ℕ) : ℚ))

/-- `n_mean = np.mean(word_counts)`. -/
def essayWordMean (texts : List String) : ℚ :=
  pymean ((essayWordCounts texts).map (fun n => (n : ℚ)))

/-- `uniq_mean = np.mean(uniq_ratios)`. -/
def essayUniqMean (texts : List String) : ℚ := pymean (essayUniqFracs texts)

/-- `rep_run_max = max(repeat_runs)` (the entries are naturals, so folding
`max` over 0 computes the same maximum; 0 when there are no answers). -/
def essayRepRunMax (texts : List String) : ℕ :=
  (texts.map (fun t => maxRepeatRun (pyRegexWords t))).foldr max 0

/-- `bi_rep_max` (nonnegative entries, so folding over 0 is their max). -/
def essayBiRepMax (texts : List String) : ℚ :=
  (texts.map (fun t => ngramRep (pyRegexWords t) 2)).foldr max 0

/-- `tri_rep_max`. -/
def essayTriRepMax (texts : List String) : ℚ :=
  (texts.map (fun t => ngramRep (pyRegexWords t) 3)).foldr max 0

/-- `filler_mean`. -/
def essayFillerMean (texts : List String) : ℚ :=
  pymean (texts.map fillerFrac)

/-- `ai_flags = sum(looks_ai_generated(t) for t in texts)`. -/
def essayAiFlags (texts : List String) : ℕ :=
  (texts.filter looksAiGenerated).length

/-- `paste_count = sum(1 for p in paste_flags if p)`. -/
def pasteCount (pastes : List Bool) : ℕ := (pastes.filter id).length

/-- `wpm_max` (entries are nonnegative; 0.0 when the list is empty). -/
def essayWpmMax (texts : List String) (times : List ℕ) : ℚ :=
  (wpmList (essayWordCounts texts) times).foldr max 0

/-- `very_short_any = any(n < 40 for n in word_counts)`. -/
def essayVeryShortAny (texts : List String) : Bool :=
  (essayWordCounts texts).any (fun n => n < 40)

/-- `short_time_count = sum(sec < 20 and n >= 50 for sec, n in
zip(times, word_counts))`. -/
def essayShortTimeCount (texts : List String) (times : List ℕ) : ℕ :=
  ((times.zip (essayWordCounts texts)).filter
    (fun p => decide (p.1 < 20) && decide (50 ≤ p.2))).length

/-- `tone_mean` (the VADER compound scores are abstracted by `sentiment`). -/
def essayToneMean (sentiment : String → ℚ) (texts : List String) : ℚ :=
  pymean (texts.map sentiment)

/-- The STRICT penalty accumulation (`ai_analysis.py` lines 267-297). -/
def essayPenalty (texts : List String) (times : List ℕ) (pastes : List Bool) : ℚ :=
  (if essayWordMean texts < 60 then 0.35 else 0) +
  (if essayUniqMean texts < 0.50 then 0.35 else 0) +
  (if 3 ≤ essayRepRunMax texts then 0.40 else 0) +
  (if 0.35 < essayBiRepMax texts ∨ 0.25 < essayTriRepMax texts then 0.30 else 0) +
  (if 0.08 < essayFillerMean texts then 0.15 else 0) +
  (if 2 ≤ essayAiFlags texts then 0.40
   else if essayAiFlags texts = 1 then 0.20 else 0) +
  (if 0 < pasteCount pastes then 0.70 else 0) +
  (if 2 ≤ essayShortTimeCount texts times ∨ essayVeryShortAny texts
   then 0.30 else 0) +
  (if 180 ≤ essayWpmMax texts times then 0.25 else 0)

/-- `content_norm` (`ai_analysis.py` lines 299-303). -/
def essayContentNorm (texts : List String) : ℚ :=
  0.6 * min 1 (essayWordMean texts / 180) +
  0.4 * min 1 (max 0 ((essayUniqMean texts - 0.35) / 0.45))

/-- `feature_norm` (`ai_analysis.py` lines 309-312). -/
def essayFeatureNorm (sentiment : String → ℚ) (flow : List String → ℚ)
    (texts : List String) : ℚ :=
  min (0.25 * max 0 ((essayToneMean sentiment texts + 1) / 2) +
       0.75 * flow texts) 1

/-- `raw = 0.70 * content_after_penalty + 0.30 * feature_norm`. -/
def essayRawScore (sentiment : String → ℚ) (flow : List String → ℚ)
    (texts : List String) (times : List ℕ) (pastes : List Bool) : ℚ :=
  0.70 * max 0 (essayContentNorm texts * (1 - min (essayPenalty texts times pastes) 1)) +
  0.30 * essayFeatureNorm sentiment flow texts

/-- `final_score = round(max(0.0, min(raw, 1.0)) * 100.0, 2)`. -/
def essayScore100 (sentiment : String → ℚ) (flow : List String → ℚ)
    (texts : List String) (times : List ℕ) (pastes : List Bool) : ℚ :=
  round2 (max 0 (min (essayRawScore sentiment flow texts times pastes) 1) * 100)

/-- The first hard clamp (`if rep_run_max >= 3 and uniq_mean < 0.4 and
n_mean < 40: final_score = min(final_score, 5.0)`). -/
def essayCapped (sentiment : String → ℚ) (flow : List String → ℚ)
    (texts : List String) (times : List ℕ) (pastes : List Bool) : ℚ :=
  if 3 ≤ essayRepRunMax texts ∧ essayUniqMean texts < 0.4 ∧
      essayWordMean texts < 40 then
    min (essayScore100 sentiment flow texts times pastes) 5
  else essayScore100 sentiment flow texts times pastes

/-- The second hard clamp (`if paste_count > 0: final_score =
min(final_score, 60.0)`). -/
def essayClamped (sentiment : String → ℚ) (flow : List String → ℚ)
    (texts : List String) (times : List ℕ) (pastes : List Bool) : ℚ :=
  if 0 < pasteCount pastes then
    min (essayCapped sentiment flow texts times pastes) 60
  else essayCapped sentiment flow texts times pastes

/-- `final_ai_score` of `analyze_essay`: 0.0 on an empty answer list (the
early guard), otherwise the penalised, capped score on the
default-normalised `times` and `paste_flags`. -/
def essayFinalScore (sentiment : String → ℚ) (flow : List String → ℚ)
    (texts : List String) (times : List ℕ) (pastes : List Bool) : ℚ :=
  if texts.isEmpty then 0
  else
    essayClamped sentiment flow texts (essayTimesN texts times)
      (essayPastesN texts pastes)

/-- `valid_display_traits` as ordered (trait, mcq-subtrait, essay-subtrait)
triples. -/
def validDisplayTraits : List (String × String × String) :=
  [("empathy", "Sensitivity", "Compassion"),
   ("ethical_reasoning", "Fairness", "Judgment"),
   ("authenticity", "Consistency", "Honesty"),
   ("critical_thinking", "Logic", "Problem Solving"),
   ("inclusiveness", "Openness", "Respect for Diversity"),
   ("accountability", "Responsibility", "Ownership"),
   ("clarity", "Understanding", "Precision")]

/-- The final per-trait clamp `max(min(v, 0.94), 0.10)`. -/
def clampTrait (v : ℚ) : ℚ := max (min v 0.94) 0.10

/-- The `trait_scores` dict of `analyze_essay` (lines 233-255), after the
final clamp into `[0.10, 0.94]` (lines 324-326), in insertion order. -/
def essayTraitScores (sentiment : String → ℚ) (flow : List String → ℚ)
    (texts : List String) : List (String × ℚ) :=
  let toneMean := essayToneMean sentiment texts
  let authenticity := flow texts
  let empathy := round2 ((toneMean + 1) / 2)
  let ethics := round2 ((authenticity + empathy) / 2)
  [("empathy", clampTrait empathy),
   ("ethical_reasoning", clampTrait ethics),
   ("authenticity", clampTrait authenticity),
   ("clarity", clampTrait (round2 (pymean (essayUniqFracs texts) * 0.9))),
   ("critical_thinking", clampTrait (round2 (ethics * 0.9))),
   ("inclusiveness", clampTrait (round2 ((empathy + toneMean + 1) / 3))),
   ("accountability", clampTrait (round2 ((authenticity + ethics) / 2))),
   ("vocabulary_richness", clampTrait (round2 (pymean (essayUniqFracs texts)))),
   ("tone_balance", clampTrait (round2 toneMean)),
   ("leadership_signal", clampTrait (round2 ((authenticity + empathy) / 2)))]

/-- The tone label (`"Positive" if tone_mean > 0.4 else "Negative" if
tone_mean < -0.4 else "Neutral"`). -/
def essayTone (sentiment : String → ℚ) (texts : List String) : String :=
  if 0.4 < essayToneMean sentiment texts then "Positive"
  else if essayToneMean sentiment texts < -0.4 then "Negative"
  else "Neutral"

/-- Join words with single spaces (`" ".join(...)`). -/
def joinSpace : List String → String
  | [] => ""
  | [w] => w
  | w :: rest => w ++ " " ++ joinSpace rest

/-- `generate_summary_comment(score, authenticity, flags)` (lines 147-156):
a banded base sentence truncated to its first 20 words (the `authenticity`
and `flags` arguments are accepted and ignored, as in the source). -/
def generateSummaryComment (score : ℚ) (_auth : ℚ) (_flags : ℕ) : String :=
  let base :=
    if 85 ≤ score then
      "Exceptional leadership integrity with strong ethics and empathy. Clear, original, and trustworthy responses detected."
    else if 70 ≤ score then
      "Solid integrity and leadership indicators. Slight concerns over authenticity and tone, but overall trustworthy performance."
    else if 50 ≤ score then
      "Moderate leadership signals. Improvements needed in tone, originality, and ethical consistency to build integrity."
    else
      "Weak leadership indicators. High risk of generic or manipulated content. Authentic reflection and ethics must improve."
  joinSpace (((splitRunsBy (fun c => !c.isWhitespace) base.data).map
    String.mk).take 20)

/-- The dict returned by `analyze_essay`. -/
structure AnalyzeResult where
  authenticity : ℚ
  empathy_signal : ℚ
  ethical_reasoning : ℚ
  tone : String
  final_ai_score : ℚ
  traits : List (String × ℚ)
  subtraits : List (String × String × String)
  ai_comment : String
deriving DecidableEq, Repr

/-- `analyze_essay(texts, times, paste_flags)` (`ai_analysis.py` lines
162-339), with the two ML components abstracted: `sentiment` is the VADER
compound score of a text (0.0 when VADER is unavailable) and `flow` the
normalised BERT semantic-flow of the answer list (0.5 when unavailable). -/
def analyzeEssay (sentiment : String → ℚ) (flow : List String → ℚ)
    (texts : List String) (times : List ℕ) (pastes : List Bool) :
    AnalyzeResult :=
  if texts.isEmpty then
    ⟨0, 0, 0, "Neutral", 0, [], validDisplayTraits, "No content provided."⟩
  else
    let toneMean := essayToneMean sentiment texts
    let authenticity := flow texts
    let empathy := round2 ((toneMean + 1) / 2)
    let ethics := round2 ((authenticity + empathy) / 2)
    let fs := essayFinalScore sentiment flow texts times pastes
    ⟨round2 authenticity, round2 empathy, round2 ethics,
     essayTone sentiment texts, fs, essayTraitScores sentiment flow texts,
     validDisplayTraits,
     generateSummaryComment fs authenticity (essayAiFlags texts)⟩

theorem analyzeEssay_final_ai_score (sentiment : String → ℚ)
    (flow : List String → ℚ) (texts : List String) (times : List ℕ)
    (pastes : List Bool) :
    (analyzeEssay sentiment flow texts times pastes).final_ai_score =
      essayFinalScore sentiment flow texts times pastes := by
  unfold analyzeEssay
  by_cases h : texts.isEmpty
  · rw [if_pos h]
    unfold essayFinalScore
    rw [if_pos h]
  · rw [if_neg h]

/-- C7: any essay answer set whose maximal immediately-repeated-word run is
at least 3, whose mean uniqueness is below 0.4 and whose mean word count is
below 40 gets a final score of at most 5.0 (the first hard clamp; the
second clamp is a `min` and cannot raise it). -/
theorem analyze_essay_low_effort_cap (sentiment : String → ℚ)
    (flow : List String → ℚ) (texts : List String) (times : List ℕ)
    (pastes : List Bool)
    (h1 : 3 ≤ essayRepRunMax texts) (h2 : essayUniqMean texts < 0.4)
    (h3 : essayWordMean texts < 40) :
    (analyzeEssay sentiment flow texts times pastes).final_ai_score ≤ 5 := by
  rw [analyzeEssay_final_ai_score]
  unfold essayFinalScore
  by_cases h : texts.isEmpty
  · rw [if_pos h]; norm_num
  · rw [if_neg h]
    have hcap : essayCapped sentiment flow texts (essayTimesN texts times)
        (essayPastesN texts pastes) ≤ 5 := by
      unfold essayCapped
      rw [if_pos ⟨h1, h2, h3⟩]
      exact min_le_right _ _
    unfold essayClamped
    split
    · exact le_trans (min_le_left _ _) hcap
    · exact hcap

/-- C8: any essay submission in which at least one answer carries the
paste-detected flag gets a final score of at most 60.0, whatever the other
features are. -/
theorem analyze_essay_paste_cap (sentiment : String → ℚ)
    (flow : List String → ℚ) (texts : List String) (times : List ℕ)
    (pastes : List Bool) (hp : true ∈ pastes) :
    (analyzeEssay sentiment flow texts times pastes).final_ai_score ≤ 60 := by
  rw [analyzeEssay_final_ai_score]
  unfold essayFinalScore
  by_cases h : texts.isEmpty
  · rw [if_pos h]; norm_num
  · rw [if_neg h]
    have hpe : ¬ pastes.isEmpty := by
      cases pastes with
      | nil => cases hp
      | cons b t => simp
    have hcount : 0 < pasteCount (essayPastesN texts pastes) := by
      unfold essayPastesN
      rw [if_neg hpe]
      unfold pasteCount
      have : true ∈ pastes.filter id := List.mem_filter.mpr ⟨hp, rfl⟩
      exact List.length_pos.mpr (List.ne_nil_of_mem this)
    unfold essayClamped
    rw [if_pos hcount]
    exact min_le_right _ _

/-- The flat sentiment model used when VADER is unavailable. -/
def zeroSentiment : String → ℚ := fun _ => 0

/-- The neutral semantic-flow model used when BERT is unavailable. -/
def halfFlow : List String → ℚ := fun _ => 1/2

/-- Three spam answers, each three repeats of "yes". -/
def spamTexts : List String := ["yes yes yes", "yes yes yes", "yes yes yes"]

/-- C7 (witness): three "yes yes yes" answers have repeat run 3, uniqueness
1/3 < 0.4 and mean word count 3 < 40, so their final score is at most 5. -/
theorem analyze_essay_low_effort_cap_witness :
    (3 ≤ essayRepRunMax spamTexts ∧ essayUniqMean spamTexts < 0.4 ∧
        essayWordMean spamTexts < 40) ∧
      (analyzeEssay zeroSentiment halfFlow spamTexts [5, 5, 5]
        [false, false, false]).final_ai_score ≤ 5 :=
  ⟨⟨by decide, by decide, by decide⟩,
   analyze_essay_low_effort_cap zeroSentiment halfFlow spamTexts [5, 5, 5]
     [false, false, false] (by decide) (by decide) (by decide)⟩

/-- C8 (witness): one pasted answer among three caps the final score at 60. -/
theorem analyze_essay_paste_cap_witness :
    true ∈ [true, false, false] ∧
      (analyzeEssay zeroSentiment halfFlow ["a", "b", "c"] [5, 5, 5]
        [true, false, false]).final_ai_score ≤ 60 :=
  ⟨by decide,
   analyze_essay_paste_cap zeroSentiment halfFlow ["a", "b", "c"] [5, 5, 5]
     [true, false, false] (by decide)⟩

/- ============ views.py: EssaySubmitView / finalize_result ============ -/

/-- `prog.essay_snapshot` (`views.py` lines 174-179). -/
structure EssaySnap where
  essay_score : ℚ
  traits : List (String × ℚ)
  subtraits : List (String × String × String)
  ai_comment : String
deriving DecidableEq, Repr

/-- An `EssayResponse` row (`models.py`). -/
structure EssayRec where
  question_number : ℕ
  answer_text : String
  typing_time_seconds : ℕ
  paste_detected : Bool
deriving DecidableEq, Repr

/-- One value of the `combined_traits` dict built by `finalize_result`. -/
structure CombinedTrait where
  score : ℚ
  mcq_score : ℚ
  essay_score : ℚ
  mcq_subtrait : String
  essay_subtrait : String
deriving DecidableEq, Repr

/-- A `FinalScore` row (`models.py`), as written by `finalize_result`. -/
structure FinalRec where
  final_integrity_score : ℚ
  verdict : String
  top_traits : List (String × CombinedTrait)
deriving DecidableEq, Repr

/-- The per-user persistent state touched by the essay and finalization
endpoints: the `AssessmentProgress` row (status, snapshot, vr_score), the
`Score` rows keyed by trait, the `EssayResponse` rows and the `FinalScore`
row. -/
structure ServerState where
  status : Status
  essay_snapshot : Option EssaySnap
  vr_score : Option ℚ
  mcqScores : List (String × ℚ)
  essayRecords : List EssayRec
  finalRecord : Option FinalRec
deriving DecidableEq, Repr

/-- Dict lookup in an association list (Python dicts keep insertion order;
keys are unique at every use site). -/
def lookupQ {α : Type} (m : List (String × α)) (k : String) : Option α :=
  (m.find? (fun p => p.1 = k)).map Prod.snd

/-- `DISPLAY_TRAITS` (`views.py` lines 20-28). -/
def DISPLAY_TRAITS : List String :=
  ["empathy", "ethical_reasoning", "authenticity", "critical_thinking",
   "clarity", "inclusiveness", "accountability"]

/-- The `combined_traits` dict (`views.py` lines 203-217): for each display
trait present in the subtrait map, combine capped MCQ and essay values. -/
def combinedTraitsOf (mcqScores allTraits : List (String × ℚ))
    (subtraitMap : List (String × String × String)) :
    List (String × CombinedTrait) :=
  DISPLAY_TRAITS.filterMap (fun trait =>
    match lookupQ subtraitMap trait with
    | none => none
    | some sub =>
      let mcqVal := max 0.5 (round2 (min ((lookupQ mcqScores trait).getD 0) 4.7))
      let essayVal :=
        max 0.5 (round2 (min (((lookupQ allTraits trait).getD 0) * 5.0) 4.7))
      let total := round2 (min (mcqVal + essayVal) 10.0)
      some (trait, ⟨total, mcqVal, essayVal, sub.1, sub.2⟩))

/-- Stable insertion into a list sorted by descending score (keeps the
original relative order of equal scores, like Python's stable `sorted`). -/
def insertByScoreDesc (x : String × CombinedTrait) :
    List (String × CombinedTrait) → List (String × CombinedTrait)
  | [] => [x]
  | y :: rest =>
    if y.2.score ≤ x.2.score then x :: y :: rest
    else y :: insertByScoreDesc x rest

/-- `sorted(combined_traits.items(), key=score, reverse=True)`. -/
def sortByScoreDesc (l : List (String × CombinedTrait)) :
    List (String × CombinedTrait) :=
  l.foldr insertByScoreDesc []

/-- The verdict bands (`views.py` lines 227-234). -/
def finalVerdict (s : ℚ) : String :=
  if 85 ≤ s then "Outstanding Integrity"
  else if 70 ≤ s then "Strong Integrity"
  else if 50 ≤ s then "Moderate Integrity"
  else "Needs Improvement"

/-- `finalize_result(user)` (`views.py` lines 185-245).  Returns the state
after the call and either the written `FinalScore` or the blocking error
message.  All three guards run before any write. -/
def finalizeResult (st : ServerState) : ServerState × Except String FinalRec :=
  if st.status ≠ Status.VR_DONE then (st, Except.error "VR not completed.")
  else
    let snap := st.essay_snapshot.getD ⟨0, [], [], ""⟩
    if st.mcqScores = [] then (st, Except.error "MCQ data missing")
    else
      match st.vr_score with
      | none => (st, Except.error "VR score missing")
      | some vr =>
        let combined := combinedTraitsOf st.mcqScores snap.traits snap.subtraits
        let top5 := (sortByScoreDesc combined).take 5
        let totalOutOf50 := (top5.map (fun p => p.2.score)).sum
        let partMcqEssay := totalOutOf50 / 50 * 50
        let partVr := vr / 50 * 50
        let finalScore := round2 (partMcqEssay + partVr)
        let fs : FinalRec := ⟨finalScore, finalVerdict finalScore, top5⟩
        ({st with finalRecord := some fs,
                  status := advance st.status Status.FINALIZED},
         Except.ok fs)

/-- `true` exactly on the success constructor. -/
def exceptIsOk {ε α : Type} : Except ε α → Bool
  | Except.ok _ => true
  | Except.error _ => false

/-- C5: whenever the progress status is not VR_DONE, or the MCQ trait
scores are absent, or `vr_score` is absent, `finalize_result` returns a
blocking error and leaves the stored state unchanged (no `FinalScore`
written, status untouched). -/
theorem finalize_blocks_without_prereqs (st : ServerState)
    (h : st.status ≠ Status.VR_DONE ∨ st.mcqScores = [] ∨ st.vr_score = none) :
    (finalizeResult st).1 = st ∧
      exceptIsOk (finalizeResult st).2 = false := by
  unfold finalizeResult
  by_cases h1 : st.status = Status.VR_DONE
  · rw [if_neg (by simp [h1])]
    by_cases h2 : st.mcqScores = []
    · rw [if_pos h2]
      exact ⟨rfl, rfl⟩
    · rw [if_neg h2]
      have h3 : st.vr_score = none := by
        rcases h with h | h | h
        · exact absurd h1 h
        · exact absurd h h2
        · exact h
      rw [h3]
      exact ⟨rfl, rfl⟩
  · rw [if_pos h1]
    exact ⟨rfl, rfl⟩

/-- A fresh user state. -/
def freshState : ServerState := ⟨Status.NOT_STARTED, none, none, [], [], none⟩

/-- C5 (witness): finalizing a fresh user (status NOT_STARTED, no MCQ data,
no vr_score) blocks and changes nothing. -/
theorem finalize_blocks_without_prereqs_witness :
    (freshState.status ≠ Status.VR_DONE ∨ freshState.mcqScores = [] ∨
        freshState.vr_score = none) ∧
      ((finalizeResult freshState).1 = freshState ∧
        exceptIsOk (finalizeResult freshState).2 = false) :=
  ⟨Or.inl (by decide),
   finalize_blocks_without_prereqs freshState (Or.inl (by decide))⟩

/-- The `EssayResponseSerializer` contract (`serializers.py` lines 19-39):
3–10 answers of at least 50 characters each, 3–10 nonnegative timers, 3–10
paste flags, all three lists of equal length. -/
def EssayValid (answers : List String) (timers : List ℕ)
    (pasted : List Bool) : Prop :=
  3 ≤ answers.length ∧ answers.length ≤ 10 ∧
  (∀ a ∈ answers, 50 ≤ a.length) ∧
  3 ≤ timers.length ∧ timers.length ≤ 10 ∧
  3 ≤ pasted.length ∧ pasted.length ≤ 10 ∧
  answers.length = timers.length ∧ answers.length = pasted.length

instance (answers : List String) (timers : List ℕ) (pasted : List Bool) :
    Decidable (EssayValid answers timers pasted) := by
  unfold EssayValid
  exact inferInstance

/-- `EssaySubmitView.post` (`views.py` lines 135-182), with the analyzer's
ML components abstracted as in `analyzeEssay`: guard the progress order,
validate, persist exactly three `EssayResponse` rows (indices 0..2 are safe
because the serializer guarantees at least three entries; `getD` mirrors
the safe indexing), run `analyze_essay` on ALL answers, then require the
MCQ scores (note: the three rows are already written when this guard fires)
and store the snapshot before advancing to ESSAY_DONE. -/
def essaySubmit (sentiment : String → ℚ) (flow : List String → ℚ)
    (st : ServerState) (answers : List String) (timers : List ℕ)
    (pasted : List Bool) : ServerState × Except String Unit :=
  if st.status ≠ Status.MCQ_DONE then
    (st, Except.error "Out of order: complete MCQs first.")
  else if ¬ EssayValid answers timers pasted then
    (st, Except.error "Invalid data")
  else
    let newRecs := (List.range 3).map (fun i =>
      (⟨i + 1, answers.getD i "", timers.getD i 0, pasted.getD i false⟩ :
        EssayRec))
    let st1 := {st with essayRecords := st.essayRecords ++ newRecs}
    let ai := analyzeEssay sentiment flow answers timers pasted
    if st.mcqScores = [] then (st1, Except.error "MCQ data missing")
    else
      ({st1 with
          essay_snapshot :=
            some ⟨ai.final_ai_score, ai.traits, ai.subtraits, ai.ai_comment⟩,
          status := advance st1.status Status.ESSAY_DONE},
       Except.ok ())

/-- C10: a valid essay submission of N answers (3 ≤ N ≤ 10, encoded by the
serializer contract `EssayValid`) made in state MCQ_DONE with MCQ scores
present succeeds, persists exactly the three `EssayResponse` rows with
ordinals 1..3 holding the first three answers, timers and paste flags, and
stores an essay snapshot computed by the analyzer from ALL N answers. -/
theorem essay_submit_three_rows_full_analysis (sentiment : String → ℚ)
    (flow : List String → ℚ) (st : ServerState) (answers : List String)
    (timers : List ℕ) (pasted : List Bool)
    (hst : st.status = Status.MCQ_DONE)
    (hv : EssayValid answers timers pasted)
    (hmcq : st.mcqScores ≠ []) :
    (essaySubmit sentiment flow st answers timers pasted).2 = Except.ok () ∧
    (essaySubmit sentiment flow st answers timers pasted).1.essayRecords =
      st.essayRecords ++
        [⟨1, answers.getD 0 "", timers.getD 0 0, pasted.getD 0 false⟩,
         ⟨2, answers.getD 1 "", timers.getD 1 0, pasted.getD 1 false⟩,
         ⟨3, answers.getD 2 "", timers.getD 2 0, pasted.getD 2 false⟩] ∧
    (essaySubmit sentiment flow st answers timers pasted).1.essay_snapshot =
      some ⟨(analyzeEssay sentiment flow answers timers pasted).final_ai_score,
            (analyzeEssay sentiment flow answers timers pasted).traits,
            (analyzeEssay sentiment flow answers timers pasted).subtraits,
            (analyzeEssay sentiment flow answers timers pasted).ai_comment⟩ := by
  unfold essaySubmit
  rw [if_neg (by simp [hst]), if_neg (by simp [hv]), if_neg hmcq]
  refine ⟨rfl, rfl, rfl⟩

/-- A 60-character answer satisfying the 50-character minimum. -/
def longAnswer : String := String.mk (List.replicate 60 'a')

/-- A state that has just finished the MCQ step. -/
def mcqDoneState : ServerState :=
  ⟨Status.MCQ_DONE, none, none, [("empathy", 3)], [], none⟩

/-- C10 (witness): submitting three valid answers in state MCQ_DONE
persists exactly rows 1..3 and the full-analysis snapshot. -/
theorem essay_submit_three_rows_witness :
    (mcqDoneState.status = Status.MCQ_DONE ∧
        EssayValid [longAnswer, longAnswer, longAnswer] [9, 9, 9]
          [false, false, false] ∧
        mcqDoneState.mcqScores ≠ []) ∧
      ((essaySubmit zeroSentiment halfFlow mcqDoneState
          [longAnswer, longAnswer, longAnswer] [9, 9, 9]
          [false, false, false]).2 = Except.ok () ∧
        (essaySubmit zeroSentiment halfFlow mcqDoneState
          [longAnswer, longAnswer, longAnswer] [9, 9, 9]
          [false, false, false]).1.essayRecords =
          mcqDoneState.essayRecords ++
            [⟨1, [longAnswer, longAnswer, longAnswer].getD 0 "",
                [9, 9, 9].getD 0 0, [false, false, false].getD 0 false⟩,
             ⟨2, [longAnswer, longAnswer, longAnswer].getD 1 "",
                [9, 9, 9].getD 1 0, [false, false, false].getD 1 false⟩,
             ⟨3, [longAnswer, longAnswer, longAnswer].getD 2 "",
                [9, 9, 9].getD 2 0, [false, false, false].getD 2 false⟩] ∧
        (essaySubmit zeroSentiment halfFlow mcqDoneState
          [longAnswer, longAnswer, longAnswer] [9, 9, 9]
          [false, false, false]).1.essay_snapshot =
          some ⟨(analyzeEssay zeroSentiment halfFlow
                  [longAnswer, longAnswer, longAnswer] [9, 9, 9]
                  [false, false, false]).final_ai_score,
                (analyzeEssay zeroSentiment halfFlow
                  [longAnswer, longAnswer, longAnswer] [9, 9, 9]
                  [false, false, false]).traits,
                (analyzeEssay zeroSentiment halfFlow
                  [longAnswer, longAnswer, longAnswer] [9, 9, 9]
                  [false, false, false]).subtraits,
                (analyzeEssay zeroSentiment halfFlow
                  [longAnswer, longAnswer, longAnswer] [9, 9, 9]
                  [false, false, false]).ai_comment⟩) :=
  ⟨⟨rfl, by decide, by decide⟩,
   essay_submit_three_rows_full_analysis zeroSentiment halfFlow mcqDoneState
     [longAnswer, longAnswer, longAnswer] [9, 9, 9] [false, false, false]
     rfl (by decide) (by decide)⟩
